import Mathlib

/-!
Shallow embedding of `sync_data.py` (mmchenry/sync_scripts): the sync-pair
generation in `DataSyncManager.load_config`, the user-override merge, the
rsync command builder, the per-pair output classification in `sync_pair`,
the orchestration in `sync_all` and `main`, and the directory setup/audit
functions `setup_sync_directories` / `check_unsynced_directories`.

Python strings become `String`, lists become `List`, dicts with fixed keys
become structures, and the ambient filesystem / subprocess effects become
explicit parameters (an abstract listing result, an abstract per-pair
success oracle).
-/

/-- Python `s.rstrip("/")`: remove every trailing `'/'` character. -/
def rstripSlash (s : String) : String :=
  String.mk ((s.data.reverse.dropWhile (fun c => c == '/')).reverse)

/-- One entry of the `sync_pairs` list built in `load_config`.  The Python
dicts always carry `name`, `source`, `destination`, `enabled` and
`rsync_options`; only the one-way pairs carry `description`. -/
structure SyncPair where
  name : String
  source : String
  destination : String
  enabled : Bool
  rsync_options : List String
  description : Option String
deriving Repr, DecidableEq

/-- The path/mode state of a `DataSyncManager` as set up by
`create_sync_manager` (fields of the Python object used by `load_config`). -/
structure Manager where
  local_data_root : String
  local_video_root : String
  data_dirs : List String
  video_dirs : List String
  one_way_video_dirs : List String
  remote_data_base : String
  remote_video_base : String
  checksum_mode : Bool

/-- Options list `rsync_options_safe` in `load_config`: options of a remote→local pair
(no `--delete`), with `--checksum` appended in checksum mode. -/
def rsync_options_safe (checksum_mode : Bool) : List String :=
  ["-av", "--progress", "--no-perms", "--no-group"] ++
    (if checksum_mode then ["--checksum"] else [])

/-- Options list `rsync_options_with_delete` in `load_config`: options of a local→remote
pair (with `--delete`), with `--checksum` appended in checksum mode. -/
def rsync_options_with_delete (checksum_mode : Bool) : List String :=
  ["-av", "--delete", "--progress", "--no-perms", "--no-group"] ++
    (if checksum_mode then ["--checksum"] else [])

/-- The `data_{d}_to_local` pair appended for `data_dir` in `load_config`. -/
def dataToLocalPair (m : Manager) (data_dir : String) : SyncPair :=
  { name := "data_" ++ data_dir ++ "_to_local"
    source := rstripSlash m.remote_data_base ++ "/" ++ data_dir
    destination := rstripSlash m.local_data_root ++ "/" ++ data_dir
    enabled := true
    rsync_options := rsync_options_safe m.checksum_mode
    description := none }

/-- The `data_{d}_to_remote` pair appended for `data_dir` in `load_config`. -/
def dataToRemotePair (m : Manager) (data_dir : String) : SyncPair :=
  { name := "data_" ++ data_dir ++ "_to_remote"
    source := rstripSlash m.local_data_root ++ "/" ++ data_dir
    destination := rstripSlash m.remote_data_base ++ "/" ++ data_dir
    enabled := true
    rsync_options := rsync_options_with_delete m.checksum_mode
    description := none }

/-- The `video_{v}_to_local` pair appended for `video_dir` in `load_config`. -/
def videoToLocalPair (m : Manager) (video_dir : String) : SyncPair :=
  { name := "video_" ++ video_dir ++ "_to_local"
    source := rstripSlash m.remote_video_base ++ "/" ++ video_dir
    destination := rstripSlash m.local_video_root ++ "/" ++ video_dir
    enabled := true
    rsync_options := rsync_options_safe m.checksum_mode
    description := none }

/-- The `video_{v}_to_remote` pair appended for `video_dir` in `load_config`. -/
def videoToRemotePair (m : Manager) (video_dir : String) : SyncPair :=
  { name := "video_" ++ video_dir ++ "_to_remote"
    source := rstripSlash m.local_video_root ++ "/" ++ video_dir
    destination := rstripSlash m.remote_video_base ++ "/" ++ video_dir
    enabled := true
    rsync_options := rsync_options_with_delete m.checksum_mode
    description := none }

/-- The `video_{v}_oneway` pair appended for a one-way `video_dir` in
`load_config` (no `--delete` in its options). -/
def videoOnewayPair (m : Manager) (video_dir : String) : SyncPair :=
  { name := "video_" ++ video_dir ++ "_oneway"
    source := rstripSlash m.local_video_root ++ "/" ++ video_dir
    destination := rstripSlash m.remote_video_base ++ "/" ++ video_dir
    enabled := true
    rsync_options := rsync_options_safe m.checksum_mode
    description := some "One-way sync: local -> remote only" }

/-- The three accumulation loops of `load_config` (lines 167-252): data
directories bidirectionally, then video directories bidirectionally, then
one-way video directories, each loop appending to `sync_pairs`. -/
def generateSyncPairs (m : Manager) : List SyncPair :=
  let sync_pairs : List SyncPair := []
  let sync_pairs := m.data_dirs.foldl
    (fun acc data_dir => acc ++ [dataToLocalPair m data_dir, dataToRemotePair m data_dir])
    sync_pairs
  let sync_pairs := m.video_dirs.foldl
    (fun acc video_dir => acc ++ [videoToLocalPair m video_dir, videoToRemotePair m video_dir])
    sync_pairs
  m.one_way_video_dirs.foldl
    (fun acc video_dir => acc ++ [videoOnewayPair m video_dir]) sync_pairs

lemma foldl_append_eq_flatMap {α β : Type} (f : α → List β) :
    ∀ (l : List α) (init : List β),
      l.foldl (fun acc x => acc ++ f x) init = init ++ l.flatMap f := by
  intro l
  induction l with
  | nil => intro init; simp
  | cons a t ih =>
      intro init
      simp only [List.foldl_cons, List.flatMap_cons, ih, List.append_assoc]

/-- Structural characterization of `generateSyncPairs`: data pairs in list
order (remote→local then local→remote per name), then video pairs likewise,
then one one-way pair per name. -/
lemma generateSyncPairs_eq (m : Manager) :
    generateSyncPairs m =
      m.data_dirs.flatMap (fun d => [dataToLocalPair m d, dataToRemotePair m d]) ++
      m.video_dirs.flatMap (fun v => [videoToLocalPair m v, videoToRemotePair m v]) ++
      m.one_way_video_dirs.flatMap (fun w => [videoOnewayPair m w]) := by
  unfold generateSyncPairs
  rw [foldl_append_eq_flatMap, foldl_append_eq_flatMap, foldl_append_eq_flatMap]
  simp [List.append_assoc]

example :
    (generateSyncPairs
      { local_data_root := "/home/u/doc/", local_video_root := "/home/u/doc"
        data_dirs := ["a"], video_dirs := ["b"], one_way_video_dirs := ["c"]
        remote_data_base := "/media/t/", remote_video_base := "/media/t/"
        checksum_mode := false }).map (fun p => p.name) =
    ["data_a_to_local", "data_a_to_remote", "video_b_to_local", "video_b_to_remote",
     "video_c_oneway"] := by decide

lemma string_data_append (s t : String) : (s ++ t).data = s.data ++ t.data := rfl

lemma option_some_or {α : Type} (a : α) (x : Option α) : (some a).or x = some a := rfl

/-- Injectivity of the name scheme in one family: fixed category together
with fixed direction suffix determines the directory name. -/
lemma mkName_inj {pre sfx : String} {d d' : String}
    (h : pre ++ d ++ sfx = pre ++ d' ++ sfx) : d = d' := by
  have hdata := congrArg String.data h
  simp only [string_data_append] at hdata
  exact String.ext (List.append_cancel_left (List.append_cancel_right hdata))

/-- Names built from category prefixes whose first characters differ are
distinct, whatever the directory names and suffixes are. -/
lemma mkName_ne_head {pre pre' mid mid' sfx sfx' : String} {c c' : Char}
    (h : pre.data.head? = some c) (h' : pre'.data.head? = some c') (hne : c ≠ c') :
    pre ++ mid ++ sfx ≠ pre' ++ mid' ++ sfx' := by
  intro heq
  have hh := congrArg String.data heq
  simp only [string_data_append] at hh
  have hh2 := congrArg List.head? hh
  simp only [List.head?_append] at hh2
  rw [h, h'] at hh2
  simp only [option_some_or] at hh2
  exact hne (Option.some.inj hh2)

/-- Names built with direction suffixes whose last characters differ are
distinct, whatever the category prefixes and directory names are. -/
lemma mkName_ne_last {pre pre' mid mid' sfx sfx' : String} {c c' : Char}
    (h : sfx.data.getLast? = some c) (h' : sfx'.data.getLast? = some c') (hne : c ≠ c') :
    pre ++ mid ++ sfx ≠ pre' ++ mid' ++ sfx' := by
  intro heq
  have hh := congrArg String.data heq
  simp only [string_data_append] at hh
  have hh2 := congrArg List.getLast? hh
  simp only [List.getLast?_append] at hh2
  rw [h, h'] at hh2
  simp only [option_some_or] at hh2
  exact hne (Option.some.inj hh2)

lemma dl_ne_dr (d d' : String) :
    "data_" ++ d ++ "_to_local" ≠ "data_" ++ d' ++ "_to_remote" :=
  mkName_ne_last (show ("_to_local" : String).data.getLast? = some 'l' by decide)
    (show ("_to_remote" : String).data.getLast? = some 'e' by decide) (by decide)

lemma vl_ne_vr (v v' : String) :
    "video_" ++ v ++ "_to_local" ≠ "video_" ++ v' ++ "_to_remote" :=
  mkName_ne_last (show ("_to_local" : String).data.getLast? = some 'l' by decide)
    (show ("_to_remote" : String).data.getLast? = some 'e' by decide) (by decide)

lemma vl_ne_ow (v w : String) :
    "video_" ++ v ++ "_to_local" ≠ "video_" ++ w ++ "_oneway" :=
  mkName_ne_last (show ("_to_local" : String).data.getLast? = some 'l' by decide)
    (show ("_oneway" : String).data.getLast? = some 'y' by decide) (by decide)

lemma vr_ne_ow (v w : String) :
    "video_" ++ v ++ "_to_remote" ≠ "video_" ++ w ++ "_oneway" :=
  mkName_ne_last (show ("_to_remote" : String).data.getLast? = some 'e' by decide)
    (show ("_oneway" : String).data.getLast? = some 'y' by decide) (by decide)

lemma dname_ne_vname (d v sfx sfx' : String) :
    "data_" ++ d ++ sfx ≠ "video_" ++ v ++ sfx' :=
  mkName_ne_head (show ("data_" : String).data.head? = some 'd' by decide)
    (show ("video_" : String).data.head? = some 'v' by decide) (by decide)

/-- The flat list of pair names, category by category. -/
lemma names_eq (m : Manager) :
    (generateSyncPairs m).map (fun p => p.name) =
      m.data_dirs.flatMap
        (fun d => ["data_" ++ d ++ "_to_local", "data_" ++ d ++ "_to_remote"]) ++
      m.video_dirs.flatMap
        (fun v => ["video_" ++ v ++ "_to_local", "video_" ++ v ++ "_to_remote"]) ++
      m.one_way_video_dirs.flatMap (fun w => ["video_" ++ w ++ "_oneway"]) := by
  rw [generateSyncPairs_eq]
  simp only [List.map_append, List.map_flatMap]
  rfl

lemma data_names_nodup (l : List String) (h : l.Nodup) :
    (l.flatMap
      (fun d => ["data_" ++ d ++ "_to_local", "data_" ++ d ++ "_to_remote"])).Nodup := by
  rw [List.nodup_flatMap]
  constructor
  · intro d _
    simp only [List.nodup_cons, List.mem_singleton, List.nodup_nil, and_true]
    exact ⟨fun hc => dl_ne_dr d d hc, by simp⟩
  · refine h.imp (fun hne => ?_)
    intro a ha hb
    simp only [List.mem_cons, List.mem_singleton, List.not_mem_nil, or_false] at ha hb
    rcases ha with ha | ha <;> rcases hb with hb | hb <;> subst ha <;>
      first
      | exact hne (mkName_inj hb)
      | exact dl_ne_dr _ _ hb
      | exact dl_ne_dr _ _ hb.symm

lemma video_names_nodup (l : List String) (h : l.Nodup) :
    (l.flatMap
      (fun v => ["video_" ++ v ++ "_to_local", "video_" ++ v ++ "_to_remote"])).Nodup := by
  rw [List.nodup_flatMap]
  constructor
  · intro v _
    simp only [List.nodup_cons, List.mem_singleton, List.nodup_nil, and_true]
    exact ⟨fun hc => vl_ne_vr v v hc, by simp⟩
  · refine h.imp (fun hne => ?_)
    intro a ha hb
    simp only [List.mem_cons, List.mem_singleton, List.not_mem_nil, or_false] at ha hb
    rcases ha with ha | ha <;> rcases hb with hb | hb <;> subst ha <;>
      first
      | exact hne (mkName_inj hb)
      | exact vl_ne_vr _ _ hb
      | exact vl_ne_vr _ _ hb.symm

lemma oneway_names_nodup (l : List String) (h : l.Nodup) :
    (l.flatMap (fun w => ["video_" ++ w ++ "_oneway"])).Nodup := by
  rw [List.nodup_flatMap]
  constructor
  · intro w _
    simp
  · refine h.imp (fun hne => ?_)
    intro a ha hb
    simp only [List.mem_singleton] at ha hb
    subst ha
    exact hne (mkName_inj hb)

/-- Across the whole generated list, pair names are distinct whenever each
configured directory list is itself duplicate-free. -/
theorem names_nodup (m : Manager) (h1 : m.data_dirs.Nodup) (h2 : m.video_dirs.Nodup)
    (h3 : m.one_way_video_dirs.Nodup) :
    ((generateSyncPairs m).map (fun p => p.name)).Nodup := by
  rw [names_eq, List.nodup_append, List.nodup_append]
  refine ⟨⟨data_names_nodup _ h1, video_names_nodup _ h2, ?_⟩,
    oneway_names_nodup _ h3, ?_⟩
  · intro a ha hb
    simp only [List.mem_flatMap, List.mem_cons, List.mem_singleton,
      List.not_mem_nil, or_false] at ha hb
    obtain ⟨d, _, ha⟩ := ha
    obtain ⟨v, _, hb⟩ := hb
    rcases ha with ha | ha <;> rcases hb with hb | hb <;> subst ha <;>
      exact dname_ne_vname _ _ _ _ hb
  · intro a ha hb
    simp only [List.mem_append, List.mem_flatMap, List.mem_cons, List.mem_singleton,
      List.not_mem_nil, or_false] at ha hb
    obtain ⟨w, _, hb⟩ := hb
    subst hb
    rcases ha with ⟨d, _, ha⟩ | ⟨v, _, ha⟩
    · rcases ha with ha | ha <;> exact dname_ne_vname _ _ _ _ ha.symm
    · rcases ha with ha | ha
      · exact vl_ne_ow _ _ ha.symm
      · exact vr_ne_ow _ _ ha.symm

lemma filter_flatMap {α β : Type} (l : List α) (f : α → List β) (p : β → Bool) :
    (l.flatMap f).filter p = l.flatMap fun x => (f x).filter p := by
  induction l with
  | nil => rfl
  | cons a t ih => simp [List.flatMap_cons, List.filter_append, ih]

lemma flatMap_nil_of_forall {α β : Type} (l : List α) (g : α → List β)
    (h : ∀ x ∈ l, g x = []) : l.flatMap g = [] := by
  induction l with
  | nil => rfl
  | cons a t ih =>
      rw [List.flatMap_cons, h a (List.mem_cons_self a t), List.nil_append]
      exact ih (fun x hx => h x (List.mem_cons_of_mem a hx))

/-- Filtering a flatMap in which exactly one element of a duplicate-free
list contributes matching entries keeps exactly that element's block. -/
lemma flatMap_filter_single {α β : Type} [DecidableEq α] (d : α) (f : α → List β)
    (p : β → Bool) :
    ∀ (l : List α), l.Nodup → d ∈ l →
      (∀ x ∈ l, x ≠ d → (f x).filter p = []) → (f d).filter p = f d →
      (l.flatMap f).filter p = f d := by
  intro l
  induction l with
  | nil => intro _ hd; cases hd
  | cons a t ih =>
      intro hnd hd hother hself
      rw [List.flatMap_cons, List.filter_append]
      rcases List.mem_cons.mp hd with rfl | hdt
      · rw [hself, filter_flatMap, flatMap_nil_of_forall, List.append_nil]
        intro x hx
        have hxne : x ≠ d := fun hcontra =>
          (List.nodup_cons.mp hnd).1 (hcontra ▸ hx)
        exact hother x (List.mem_cons_of_mem d hx) hxne
      · have hane : a ≠ d := fun hcontra => (List.nodup_cons.mp hnd).1 (hcontra ▸ hdt)
        rw [hother a (List.mem_cons_self a t) hane, List.nil_append]
        exact ih (List.nodup_cons.mp hnd).2 hdt
          (fun x hx => hother x (List.mem_cons_of_mem a hx)) hself

lemma flatMap_pair_length {α β : Type} (f g : α → β) (l : List α) :
    (l.flatMap fun x => [f x, g x]).length = 2 * l.length := by
  induction l with
  | nil => rfl
  | cons a t ih => simp only [List.flatMap_cons, List.length_append, List.length_cons,
      List.length_nil, ih, List.length_cons]; omega

lemma mem_generateSyncPairs {m : Manager} {p : SyncPair} :
    p ∈ generateSyncPairs m ↔
      (∃ d ∈ m.data_dirs, p = dataToLocalPair m d ∨ p = dataToRemotePair m d) ∨
      (∃ v ∈ m.video_dirs, p = videoToLocalPair m v ∨ p = videoToRemotePair m v) ∨
      (∃ w ∈ m.one_way_video_dirs, p = videoOnewayPair m w) := by
  rw [generateSyncPairs_eq]
  simp [List.mem_append, List.mem_flatMap, or_assoc]

lemma checksum_mem_safe (cm : Bool) :
    "--checksum" ∈ rsync_options_safe cm ↔ cm = true := by
  cases cm <;> simp [rsync_options_safe]

lemma checksum_mem_with_delete (cm : Bool) :
    "--checksum" ∈ rsync_options_with_delete cm ↔ cm = true := by
  cases cm <;> simp [rsync_options_with_delete]

lemma delete_not_mem_safe (cm : Bool) : "--delete" ∉ rsync_options_safe cm := by
  cases cm <;> simp [rsync_options_safe]

lemma delete_mem_with_delete (cm : Bool) : "--delete" ∈ rsync_options_with_delete cm := by
  cases cm <;> simp [rsync_options_with_delete]

lemma data_block_filter_ne (m : Manager) (x d : String) (hne : x ≠ d) :
    ([dataToLocalPair m x, dataToRemotePair m x]).filter
      (fun p => p.name == "data_" ++ d ++ "_to_local"
        || p.name == "data_" ++ d ++ "_to_remote") = [] := by
  have h1 : ((dataToLocalPair m x).name == "data_" ++ d ++ "_to_local"
      || (dataToLocalPair m x).name == "data_" ++ d ++ "_to_remote") = false := by
    simp only [dataToLocalPair, Bool.or_eq_false_iff, beq_eq_false_iff_ne, ne_eq]
    exact ⟨fun h => hne (mkName_inj h), fun h => dl_ne_dr x d h⟩
  have h2 : ((dataToRemotePair m x).name == "data_" ++ d ++ "_to_local"
      || (dataToRemotePair m x).name == "data_" ++ d ++ "_to_remote") = false := by
    simp only [dataToRemotePair, Bool.or_eq_false_iff, beq_eq_false_iff_ne, ne_eq]
    exact ⟨fun h => dl_ne_dr d x h.symm, fun h => hne (mkName_inj h)⟩
  simp [List.filter, h1, h2]

lemma video_block_filter_data (m : Manager) (x d : String) :
    ([videoToLocalPair m x, videoToRemotePair m x]).filter
      (fun p => p.name == "data_" ++ d ++ "_to_local"
        || p.name == "data_" ++ d ++ "_to_remote") = [] := by
  have h1 : ((videoToLocalPair m x).name == "data_" ++ d ++ "_to_local"
      || (videoToLocalPair m x).name == "data_" ++ d ++ "_to_remote") = false := by
    simp only [videoToLocalPair, Bool.or_eq_false_iff, beq_eq_false_iff_ne, ne_eq]
    exact ⟨fun h => dname_ne_vname d x _ _ h.symm, fun h => dname_ne_vname d x _ _ h.symm⟩
  have h2 : ((videoToRemotePair m x).name == "data_" ++ d ++ "_to_local"
      || (videoToRemotePair m x).name == "data_" ++ d ++ "_to_remote") = false := by
    simp only [videoToRemotePair, Bool.or_eq_false_iff, beq_eq_false_iff_ne, ne_eq]
    exact ⟨fun h => dname_ne_vname d x _ _ h.symm, fun h => dname_ne_vname d x _ _ h.symm⟩
  simp [List.filter, h1, h2]

lemma oneway_block_filter_data (m : Manager) (x d : String) :
    ([videoOnewayPair m x]).filter
      (fun p => p.name == "data_" ++ d ++ "_to_local"
        || p.name == "data_" ++ d ++ "_to_remote") = [] := by
  have h1 : ((videoOnewayPair m x).name == "data_" ++ d ++ "_to_local"
      || (videoOnewayPair m x).name == "data_" ++ d ++ "_to_remote") = false := by
    simp only [videoOnewayPair, Bool.or_eq_false_iff, beq_eq_false_iff_ne, ne_eq]
    exact ⟨fun h => dname_ne_vname d x _ _ h.symm, fun h => dname_ne_vname d x _ _ h.symm⟩
  simp [List.filter, h1]

/-- Filtering the full generated list by the two bidirectional names of a
data directory selects exactly its remote→local pair then local→remote pair. -/
lemma generate_filter_data (m : Manager) (d : String) (hnd : m.data_dirs.Nodup)
    (hd : d ∈ m.data_dirs) :
    (generateSyncPairs m).filter
      (fun p => p.name == "data_" ++ d ++ "_to_local"
        || p.name == "data_" ++ d ++ "_to_remote") =
    [dataToLocalPair m d, dataToRemotePair m d] := by
  rw [generateSyncPairs_eq, List.filter_append, List.filter_append]
  rw [filter_flatMap, filter_flatMap, filter_flatMap]
  rw [flatMap_nil_of_forall m.video_dirs _ (fun x _ => video_block_filter_data m x d)]
  rw [flatMap_nil_of_forall m.one_way_video_dirs _ (fun x _ => oneway_block_filter_data m x d)]
  rw [List.append_nil, List.append_nil]
  have hself : ([dataToLocalPair m d, dataToRemotePair m d]).filter
      (fun p => p.name == "data_" ++ d ++ "_to_local"
        || p.name == "data_" ++ d ++ "_to_remote") =
      [dataToLocalPair m d, dataToRemotePair m d] := by
    simp [List.filter, dataToLocalPair, dataToRemotePair]
  rw [← filter_flatMap]
  exact flatMap_filter_single d _ _ m.data_dirs hnd hd
    (fun x _ hne => data_block_filter_ne m x d hne) hself

lemma video_block_filter_ne (m : Manager) (x v : String) (hne : x ≠ v) :
    ([videoToLocalPair m x, videoToRemotePair m x]).filter
      (fun p => p.name == "video_" ++ v ++ "_to_local"
        || p.name == "video_" ++ v ++ "_to_remote") = [] := by
  have h1 : ((videoToLocalPair m x).name == "video_" ++ v ++ "_to_local"
      || (videoToLocalPair m x).name == "video_" ++ v ++ "_to_remote") = false := by
    simp only [videoToLocalPair, Bool.or_eq_false_iff, beq_eq_false_iff_ne, ne_eq]
    exact ⟨fun h => hne (mkName_inj h), fun h => vl_ne_vr x v h⟩
  have h2 : ((videoToRemotePair m x).name == "video_" ++ v ++ "_to_local"
      || (videoToRemotePair m x).name == "video_" ++ v ++ "_to_remote") = false := by
    simp only [videoToRemotePair, Bool.or_eq_false_iff, beq_eq_false_iff_ne, ne_eq]
    exact ⟨fun h => vl_ne_vr v x h.symm, fun h => hne (mkName_inj h)⟩
  simp [List.filter, h1, h2]

lemma data_block_filter_video (m : Manager) (x v : String) :
    ([dataToLocalPair m x, dataToRemotePair m x]).filter
      (fun p => p.name == "video_" ++ v ++ "_to_local"
        || p.name == "video_" ++ v ++ "_to_remote") = [] := by
  have h1 : ((dataToLocalPair m x).name == "video_" ++ v ++ "_to_local"
      || (dataToLocalPair m x).name == "video_" ++ v ++ "_to_remote") = false := by
    simp only [dataToLocalPair, Bool.or_eq_false_iff, beq_eq_false_iff_ne, ne_eq]
    exact ⟨fun h => dname_ne_vname x v _ _ h, fun h => dname_ne_vname x v _ _ h⟩
  have h2 : ((dataToRemotePair m x).name == "video_" ++ v ++ "_to_local"
      || (dataToRemotePair m x).name == "video_" ++ v ++ "_to_remote") = false := by
    simp only [dataToRemotePair, Bool.or_eq_false_iff, beq_eq_false_iff_ne, ne_eq]
    exact ⟨fun h => dname_ne_vname x v _ _ h, fun h => dname_ne_vname x v _ _ h⟩
  simp [List.filter, h1, h2]

lemma oneway_block_filter_video (m : Manager) (x v : String) :
    ([videoOnewayPair m x]).filter
      (fun p => p.name == "video_" ++ v ++ "_to_local"
        || p.name == "video_" ++ v ++ "_to_remote") = [] := by
  have h1 : ((videoOnewayPair m x).name == "video_" ++ v ++ "_to_local"
      || (videoOnewayPair m x).name == "video_" ++ v ++ "_to_remote") = false := by
    simp only [videoOnewayPair, Bool.or_eq_false_iff, beq_eq_false_iff_ne, ne_eq]
    exact ⟨fun h => vl_ne_ow v x h.symm, fun h => vr_ne_ow v x h.symm⟩
  simp [List.filter, h1]

/-- Filtering the full generated list by the two bidirectional names of a
video directory selects exactly its remote→local pair then local→remote pair. -/
lemma generate_filter_video (m : Manager) (v : String) (hnd : m.video_dirs.Nodup)
    (hv : v ∈ m.video_dirs) :
    (generateSyncPairs m).filter
      (fun p => p.name == "video_" ++ v ++ "_to_local"
        || p.name == "video_" ++ v ++ "_to_remote") =
    [videoToLocalPair m v, videoToRemotePair m v] := by
  rw [generateSyncPairs_eq, List.filter_append, List.filter_append]
  rw [filter_flatMap, filter_flatMap, filter_flatMap]
  rw [flatMap_nil_of_forall m.data_dirs _ (fun x _ => data_block_filter_video m x v)]
  rw [flatMap_nil_of_forall m.one_way_video_dirs _ (fun x _ => oneway_block_filter_video m x v)]
  rw [List.nil_append, List.append_nil]
  have hself : ([videoToLocalPair m v, videoToRemotePair m v]).filter
      (fun p => p.name == "video_" ++ v ++ "_to_local"
        || p.name == "video_" ++ v ++ "_to_remote") =
      [videoToLocalPair m v, videoToRemotePair m v] := by
    simp [List.filter, videoToLocalPair, videoToRemotePair]
  rw [← filter_flatMap]
  exact flatMap_filter_single v _ _ m.video_dirs hnd hv
    (fun x _ hne => video_block_filter_ne m x v hne) hself

lemma oneway_block_filter_ne (m : Manager) (x w : String) (hne : x ≠ w) :
    ([videoOnewayPair m x]).filter (fun p => p.name == "video_" ++ w ++ "_oneway") = [] := by
  have h1 : ((videoOnewayPair m x).name == "video_" ++ w ++ "_oneway") = false := by
    simp only [videoOnewayPair, beq_eq_false_iff_ne, ne_eq]
    exact fun h => hne (mkName_inj h)
  simp [List.filter, h1]

lemma data_block_filter_oneway (m : Manager) (x w : String) :
    ([dataToLocalPair m x, dataToRemotePair m x]).filter
      (fun p => p.name == "video_" ++ w ++ "_oneway") = [] := by
  have h1 : ((dataToLocalPair m x).name == "video_" ++ w ++ "_oneway") = false := by
    simp only [dataToLocalPair, beq_eq_false_iff_ne, ne_eq]
    exact fun h => dname_ne_vname x w _ _ h
  have h2 : ((dataToRemotePair m x).name == "video_" ++ w ++ "_oneway") = false := by
    simp only [dataToRemotePair, beq_eq_false_iff_ne, ne_eq]
    exact fun h => dname_ne_vname x w _ _ h
  simp [List.filter, h1, h2]

lemma video_block_filter_oneway (m : Manager) (x w : String) :
    ([videoToLocalPair m x, videoToRemotePair m x]).filter
      (fun p => p.name == "video_" ++ w ++ "_oneway") = [] := by
  have h1 : ((videoToLocalPair m x).name == "video_" ++ w ++ "_oneway") = false := by
    simp only [videoToLocalPair, beq_eq_false_iff_ne, ne_eq]
    exact fun h => vl_ne_ow x w h
  have h2 : ((videoToRemotePair m x).name == "video_" ++ w ++ "_oneway") = false := by
    simp only [videoToRemotePair, beq_eq_false_iff_ne, ne_eq]
    exact fun h => vr_ne_ow x w h
  simp [List.filter, h1, h2]

/-- Filtering the full generated list by a one-way name selects exactly the
single one-way pair. -/
lemma generate_filter_oneway (m : Manager) (w : String)
    (hnd : m.one_way_video_dirs.Nodup) (hw : w ∈ m.one_way_video_dirs) :
    (generateSyncPairs m).filter (fun p => p.name == "video_" ++ w ++ "_oneway") =
    [videoOnewayPair m w] := by
  rw [generateSyncPairs_eq, List.filter_append, List.filter_append]
  rw [filter_flatMap, filter_flatMap, filter_flatMap]
  rw [flatMap_nil_of_forall m.data_dirs _ (fun x _ => data_block_filter_oneway m x w)]
  rw [flatMap_nil_of_forall m.video_dirs _ (fun x _ => video_block_filter_oneway m x w)]
  rw [List.nil_append, List.nil_append]
  have hself : ([videoOnewayPair m w]).filter
      (fun p => p.name == "video_" ++ w ++ "_oneway") = [videoOnewayPair m w] := by
    simp [List.filter, videoOnewayPair]
  rw [← filter_flatMap]
  exact flatMap_filter_single w _ _ m.one_way_video_dirs hnd hw
    (fun x _ hne => oneway_block_filter_ne m x w hne) hself

/-- Claim C1: for every name in the bidirectional data and video lists,
generation produces exactly two SyncPairs whose source and destination are
each other's swap, the remote→local pair never carrying `--delete` and the
local→remote pair always carrying it; for every one-way name exactly one
local→remote pair without `--delete`; and `--checksum` is present in a
generated pair's options iff checksum mode is active. -/
theorem claim_C1_delete_asymmetry (m : Manager)
    (h1 : m.data_dirs.Nodup) (h2 : m.video_dirs.Nodup)
    (h3 : m.one_way_video_dirs.Nodup) :
    (∀ d ∈ m.data_dirs,
      (generateSyncPairs m).filter
        (fun p => p.name == "data_" ++ d ++ "_to_local"
          || p.name == "data_" ++ d ++ "_to_remote") =
        [dataToLocalPair m d, dataToRemotePair m d] ∧
      (dataToLocalPair m d).source = (dataToRemotePair m d).destination ∧
      (dataToLocalPair m d).destination = (dataToRemotePair m d).source ∧
      "--delete" ∉ (dataToLocalPair m d).rsync_options ∧
      "--delete" ∈ (dataToRemotePair m d).rsync_options) ∧
    (∀ v ∈ m.video_dirs,
      (generateSyncPairs m).filter
        (fun p => p.name == "video_" ++ v ++ "_to_local"
          || p.name == "video_" ++ v ++ "_to_remote") =
        [videoToLocalPair m v, videoToRemotePair m v] ∧
      (videoToLocalPair m v).source = (videoToRemotePair m v).destination ∧
      (videoToLocalPair m v).destination = (videoToRemotePair m v).source ∧
      "--delete" ∉ (videoToLocalPair m v).rsync_options ∧
      "--delete" ∈ (videoToRemotePair m v).rsync_options) ∧
    (∀ w ∈ m.one_way_video_dirs,
      (generateSyncPairs m).filter (fun p => p.name == "video_" ++ w ++ "_oneway") =
        [videoOnewayPair m w] ∧
      (videoOnewayPair m w).source = rstripSlash m.local_video_root ++ "/" ++ w ∧
      (videoOnewayPair m w).destination = rstripSlash m.remote_video_base ++ "/" ++ w ∧
      "--delete" ∉ (videoOnewayPair m w).rsync_options) ∧
    (∀ p ∈ generateSyncPairs m,
      ("--checksum" ∈ p.rsync_options ↔ m.checksum_mode = true)) := by
  refine ⟨fun d hd => ⟨generate_filter_data m d h1 hd, rfl, rfl,
      delete_not_mem_safe m.checksum_mode, delete_mem_with_delete m.checksum_mode⟩,
    fun v hv => ⟨generate_filter_video m v h2 hv, rfl, rfl,
      delete_not_mem_safe m.checksum_mode, delete_mem_with_delete m.checksum_mode⟩,
    fun w hw => ⟨generate_filter_oneway m w h3 hw, rfl, rfl,
      delete_not_mem_safe m.checksum_mode⟩,
    fun p hp => ?_⟩
  rcases mem_generateSyncPairs.mp hp with ⟨d, _, rfl | rfl⟩ | ⟨v, _, rfl | rfl⟩ | ⟨w, _, rfl⟩
  · exact checksum_mem_safe m.checksum_mode
  · exact checksum_mem_with_delete m.checksum_mode
  · exact checksum_mem_safe m.checksum_mode
  · exact checksum_mem_with_delete m.checksum_mode
  · exact checksum_mem_safe m.checksum_mode

/-- Witness for claim C1 at a concrete manager with one directory per list
and checksum mode off. -/
theorem claim_C1_delete_asymmetry_witness :
    (∀ d ∈ ["md"],
      (generateSyncPairs
        { local_data_root := "/home/u/doc", local_video_root := "/home/u/doc"
          data_dirs := ["md"], video_dirs := ["pv"], one_way_video_dirs := ["raw"]
          remote_data_base := "/media/t/", remote_video_base := "/media/t/"
          checksum_mode := false }).filter
        (fun p => p.name == "data_" ++ d ++ "_to_local"
          || p.name == "data_" ++ d ++ "_to_remote") =
        [dataToLocalPair
          { local_data_root := "/home/u/doc", local_video_root := "/home/u/doc"
            data_dirs := ["md"], video_dirs := ["pv"], one_way_video_dirs := ["raw"]
            remote_data_base := "/media/t/", remote_video_base := "/media/t/"
            checksum_mode := false } d,
         dataToRemotePair
          { local_data_root := "/home/u/doc", local_video_root := "/home/u/doc"
            data_dirs := ["md"], video_dirs := ["pv"], one_way_video_dirs := ["raw"]
            remote_data_base := "/media/t/", remote_video_base := "/media/t/"
            checksum_mode := false } d] ∧
      (dataToLocalPair
        { local_data_root := "/home/u/doc", local_video_root := "/home/u/doc"
          data_dirs := ["md"], video_dirs := ["pv"], one_way_video_dirs := ["raw"]
          remote_data_base := "/media/t/", remote_video_base := "/media/t/"
          checksum_mode := false } d).source =
      (dataToRemotePair
        { local_data_root := "/home/u/doc", local_video_root := "/home/u/doc"
          data_dirs := ["md"], video_dirs := ["pv"], one_way_video_dirs := ["raw"]
          remote_data_base := "/media/t/", remote_video_base := "/media/t/"
          checksum_mode := false } d).destination ∧
      (dataToLocalPair
        { local_data_root := "/home/u/doc", local_video_root := "/home/u/doc"
          data_dirs := ["md"], video_dirs := ["pv"], one_way_video_dirs := ["raw"]
          remote_data_base := "/media/t/", remote_video_base := "/media/t/"
          checksum_mode := false } d).destination =
      (dataToRemotePair
        { local_data_root := "/home/u/doc", local_video_root := "/home/u/doc"
          data_dirs := ["md"], video_dirs := ["pv"], one_way_video_dirs := ["raw"]
          remote_data_base := "/media/t/", remote_video_base := "/media/t/"
          checksum_mode := false } d).source ∧
      "--delete" ∉ (dataToLocalPair
        { local_data_root := "/home/u/doc", local_video_root := "/home/u/doc"
          data_dirs := ["md"], video_dirs := ["pv"], one_way_video_dirs := ["raw"]
          remote_data_base := "/media/t/", remote_video_base := "/media/t/"
          checksum_mode := false } d).rsync_options ∧
      "--delete" ∈ (dataToRemotePair
        { local_data_root := "/home/u/doc", local_video_root := "/home/u/doc"
          data_dirs := ["md"], video_dirs := ["pv"], one_way_video_dirs := ["raw"]
          remote_data_base := "/media/t/", remote_video_base := "/media/t/"
          checksum_mode := false } d).rsync_options) ∧
    (∀ v ∈ ["pv"],
      (generateSyncPairs
        { local_data_root := "/home/u/doc", local_video_root := "/home/u/doc"
          data_dirs := ["md"], video_dirs := ["pv"], one_way_video_dirs := ["raw"]
          remote_data_base := "/media/t/", remote_video_base := "/media/t/"
          checksum_mode := false }).filter
        (fun p => p.name == "video_" ++ v ++ "_to_local"
          || p.name == "video_" ++ v ++ "_to_remote") =
        [videoToLocalPair
          { local_data_root := "/home/u/doc", local_video_root := "/home/u/doc"
            data_dirs := ["md"], video_dirs := ["pv"], one_way_video_dirs := ["raw"]
            remote_data_base := "/media/t/", remote_video_base := "/media/t/"
            checksum_mode := false } v,
         videoToRemotePair
          { local_data_root := "/home/u/doc", local_video_root := "/home/u/doc"
            data_dirs := ["md"], video_dirs := ["pv"], one_way_video_dirs := ["raw"]
            remote_data_base := "/media/t/", remote_video_base := "/media/t/"
            checksum_mode := false } v] ∧
      (videoToLocalPair
        { local_data_root := "/home/u/doc", local_video_root := "/home/u/doc"
          data_dirs := ["md"], video_dirs := ["pv"], one_way_video_dirs := ["raw"]
          remote_data_base := "/media/t/", remote_video_base := "/media/t/"
          checksum_mode := false } v).source =
      (videoToRemotePair
        { local_data_root := "/home/u/doc", local_video_root := "/home/u/doc"
          data_dirs := ["md"], video_dirs := ["pv"], one_way_video_dirs := ["raw"]
          remote_data_base := "/media/t/", remote_video_base := "/media/t/"
          checksum_mode := false } v).destination ∧
      (videoToLocalPair
        { local_data_root := "/home/u/doc", local_video_root := "/home/u/doc"
          data_dirs := ["md"], video_dirs := ["pv"], one_way_video_dirs := ["raw"]
          remote_data_base := "/media/t/", remote_video_base := "/media/t/"
          checksum_mode := false } v).destination =
      (videoToRemotePair
        { local_data_root := "/home/u/doc", local_video_root := "/home/u/doc"
          data_dirs := ["md"], video_dirs := ["pv"], one_way_video_dirs := ["raw"]
          remote_data_base := "/media/t/", remote_video_base := "/media/t/"
          checksum_mode := false } v).source ∧
      "--delete" ∉ (videoToLocalPair
        { local_data_root := "/home/u/doc", local_video_root := "/home/u/doc"
          data_dirs := ["md"], video_dirs := ["pv"], one_way_video_dirs := ["raw"]
          remote_data_base := "/media/t/", remote_video_base := "/media/t/"
          checksum_mode := false } v).rsync_options ∧
      "--delete" ∈ (videoToRemotePair
        { local_data_root := "/home/u/doc", local_video_root := "/home/u/doc"
          data_dirs := ["md"], video_dirs := ["pv"], one_way_video_dirs := ["raw"]
          remote_data_base := "/media/t/", remote_video_base := "/media/t/"
          checksum_mode := false } v).rsync_options) ∧
    (∀ w ∈ ["raw"],
      (generateSyncPairs
        { local_data_root := "/home/u/doc", local_video_root := "/home/u/doc"
          data_dirs := ["md"], video_dirs := ["pv"], one_way_video_dirs := ["raw"]
          remote_data_base := "/media/t/", remote_video_base := "/media/t/"
          checksum_mode := false }).filter
        (fun p => p.name == "video_" ++ w ++ "_oneway") =
        [videoOnewayPair
          { local_data_root := "/home/u/doc", local_video_root := "/home/u/doc"
            data_dirs := ["md"], video_dirs := ["pv"], one_way_video_dirs := ["raw"]
            remote_data_base := "/media/t/", remote_video_base := "/media/t/"
            checksum_mode := false } w] ∧
      (videoOnewayPair
        { local_data_root := "/home/u/doc", local_video_root := "/home/u/doc"
          data_dirs := ["md"], video_dirs := ["pv"], one_way_video_dirs := ["raw"]
          remote_data_base := "/media/t/", remote_video_base := "/media/t/"
          checksum_mode := false } w).source = rstripSlash "/home/u/doc" ++ "/" ++ w ∧
      (videoOnewayPair
        { local_data_root := "/home/u/doc", local_video_root := "/home/u/doc"
          data_dirs := ["md"], video_dirs := ["pv"], one_way_video_dirs := ["raw"]
          remote_data_base := "/media/t/", remote_video_base := "/media/t/"
          checksum_mode := false } w).destination = rstripSlash "/media/t/" ++ "/" ++ w ∧
      "--delete" ∉ (videoOnewayPair
        { local_data_root := "/home/u/doc", local_video_root := "/home/u/doc"
          data_dirs := ["md"], video_dirs := ["pv"], one_way_video_dirs := ["raw"]
          remote_data_base := "/media/t/", remote_video_base := "/media/t/"
          checksum_mode := false } w).rsync_options) ∧
    (∀ p ∈ generateSyncPairs
        { local_data_root := "/home/u/doc", local_video_root := "/home/u/doc"
          data_dirs := ["md"], video_dirs := ["pv"], one_way_video_dirs := ["raw"]
          remote_data_base := "/media/t/", remote_video_base := "/media/t/"
          checksum_mode := false },
      ("--checksum" ∈ p.rsync_options ↔
        Manager.checksum_mode
          { local_data_root := "/home/u/doc", local_video_root := "/home/u/doc"
            data_dirs := ["md"], video_dirs := ["pv"], one_way_video_dirs := ["raw"]
            remote_data_base := "/media/t/", remote_video_base := "/media/t/"
            checksum_mode := false } = true)) :=
  claim_C1_delete_asymmetry
    { local_data_root := "/home/u/doc", local_video_root := "/home/u/doc"
      data_dirs := ["md"], video_dirs := ["pv"], one_way_video_dirs := ["raw"]
      remote_data_base := "/media/t/", remote_video_base := "/media/t/"
      checksum_mode := false }
    (by decide) (by decide) (by decide)

/-- Claim C2: pair generation yields exactly 2d + 2v + w pairs, with names
unique across the whole set, in a fixed order: data names in list order
before video names in list order, each bidirectional name contributing its
remote→local pair immediately followed by its local→remote pair, then one
pair per one-way name in list order. -/
theorem claim_C2_pair_count_order (m : Manager)
    (h1 : m.data_dirs.Nodup) (h2 : m.video_dirs.Nodup)
    (h3 : m.one_way_video_dirs.Nodup) :
    (generateSyncPairs m).length =
      2 * m.data_dirs.length + 2 * m.video_dirs.length + m.one_way_video_dirs.length ∧
    ((generateSyncPairs m).map (fun p => p.name)).Nodup ∧
    generateSyncPairs m =
      m.data_dirs.flatMap (fun d => [dataToLocalPair m d, dataToRemotePair m d]) ++
      m.video_dirs.flatMap (fun v => [videoToLocalPair m v, videoToRemotePair m v]) ++
      m.one_way_video_dirs.map (fun w => videoOnewayPair m w) := by
  refine ⟨?_, names_nodup m h1 h2 h3, ?_⟩
  · rw [generateSyncPairs_eq]
    simp only [List.length_append, flatMap_pair_length]
    have : (m.one_way_video_dirs.flatMap fun w => [videoOnewayPair m w]).length =
        m.one_way_video_dirs.length := by
      induction m.one_way_video_dirs with
      | nil => rfl
      | cons a t ih => simp [List.flatMap_cons, ih]
    omega
  · rw [generateSyncPairs_eq]
    congr 1
    induction m.one_way_video_dirs with
    | nil => rfl
    | cons a t ih => simp [List.flatMap_cons, List.map_cons, ih]

/-- Witness for claim C2 at a concrete manager with two data names, one
video name and one one-way name: 2·2 + 2·1 + 1 = 7 pairs, distinct names,
in the stated order. -/
theorem claim_C2_pair_count_order_witness :
    (generateSyncPairs
      { local_data_root := "/home/u/doc", local_video_root := "/home/u/doc"
        data_dirs := ["m", "s"], video_dirs := ["pv"], one_way_video_dirs := ["raw"]
        remote_data_base := "/media/t/", remote_video_base := "/media/t/"
        checksum_mode := true }).length = 7 ∧
    ((generateSyncPairs
      { local_data_root := "/home/u/doc", local_video_root := "/home/u/doc"
        data_dirs := ["m", "s"], video_dirs := ["pv"], one_way_video_dirs := ["raw"]
        remote_data_base := "/media/t/", remote_video_base := "/media/t/"
        checksum_mode := true }).map (fun p => p.name)).Nodup := by
  have h := claim_C2_pair_count_order
    { local_data_root := "/home/u/doc", local_video_root := "/home/u/doc"
      data_dirs := ["m", "s"], video_dirs := ["pv"], one_way_video_dirs := ["raw"]
      remote_data_base := "/media/t/", remote_video_base := "/media/t/"
      checksum_mode := true }
    (by decide) (by decide) (by decide)
  exact ⟨h.1, h.2.1⟩

/-- Structure of `self.config` as assembled in `load_config`: the generated pair list,
the global option list and the exclude-pattern list. -/
structure Config where
  sync_pairs : List SyncPair
  global_rsync_options : List String
  exclude_patterns : List String
deriving Repr, DecidableEq

/-- The default `exclude_patterns` list in `load_config`. -/
def defaultExcludePatterns : List String :=
  ["*.tmp", "*.log", ".DS_Store", "Thumbs.db", "__pycache__", "*.pyc"]

/-- The default configuration built in `load_config` before user overrides. -/
def defaultConfig (m : Manager) : Config :=
  { sync_pairs := generateSyncPairs m
    global_rsync_options := ["-av", "--progress"]
    exclude_patterns := defaultExcludePatterns }

/-- A pair entry of a persisted user config: `load_config` reads only its
`name` and (optionally present) `enabled` field, via `.get("enabled", True)`. -/
structure UserPair where
  name : String
  enabled : Option Bool
deriving Repr, DecidableEq

/-- A parseable persisted config document: each of the three keys may be
absent (`if "global_rsync_options" in user_config`, etc.). -/
structure UserConfig where
  global_rsync_options : Option (List String)
  exclude_patterns : Option (List String)
  sync_pairs : Option (List UserPair)
deriving Repr, DecidableEq

/-- The dict comprehension `{pair["name"]: pair for pair in
user_config["sync_pairs"]}` followed by lookup: for duplicate names the
later entry wins. -/
def lookupUserPair (ups : List UserPair) (n : String) : Option UserPair :=
  ups.foldl (fun acc up => if up.name == n then some up else acc) none

/-- The per-pair patch loop of `load_config`: if a prior pair with the same
name exists, only `enabled` is overwritten (defaulting to true when the
prior pair lacks the key). -/
def applyEnabled (ups : List UserPair) (p : SyncPair) : SyncPair :=
  match lookupUserPair ups p.name with
  | some up => { p with enabled := up.enabled.getD true }
  | none => p

/-- Function `load_config` (lines 160-290): regenerate the pairs, then, when a prior
persisted config parsed, replace the global option and exclude lists
wholesale if present and patch each regenerated pair's `enabled` flag.
`none` stands for a missing or unparseable prior config (defaults kept). -/
def load_config (m : Manager) (user_config : Option UserConfig) : Config :=
  let config := defaultConfig m
  match user_config with
  | none => config
  | some uc =>
    let config := match uc.global_rsync_options with
      | some g => { config with global_rsync_options := g }
      | none => config
    let config := match uc.exclude_patterns with
      | some e => { config with exclude_patterns := e }
      | none => config
    match uc.sync_pairs with
    | some ups => { config with sync_pairs := config.sync_pairs.map (applyEnabled ups) }
    | none => config

/-- Claim C3: with a parseable prior config present, the global option list
and exclude-pattern list are copied wholesale, and each regenerated pair
keeps all structural fields from fresh generation, taking only `enabled`
from a prior pair of the same name. -/
theorem claim_C3_override_merge (m : Manager) (g e : List String) (ups : List UserPair) :
    (load_config m (some ⟨some g, some e, some ups⟩)).global_rsync_options = g ∧
    (load_config m (some ⟨some g, some e, some ups⟩)).exclude_patterns = e ∧
    (load_config m (some ⟨some g, some e, some ups⟩)).sync_pairs.length =
      (generateSyncPairs m).length ∧
    (∀ i (hi : i < (load_config m (some ⟨some g, some e, some ups⟩)).sync_pairs.length)
        (hj : i < (generateSyncPairs m).length),
      ((load_config m (some ⟨some g, some e, some ups⟩)).sync_pairs.get ⟨i, hi⟩).name =
        ((generateSyncPairs m).get ⟨i, hj⟩).name ∧
      ((load_config m (some ⟨some g, some e, some ups⟩)).sync_pairs.get ⟨i, hi⟩).source =
        ((generateSyncPairs m).get ⟨i, hj⟩).source ∧
      ((load_config m (some ⟨some g, some e, some ups⟩)).sync_pairs.get ⟨i, hi⟩).destination =
        ((generateSyncPairs m).get ⟨i, hj⟩).destination ∧
      ((load_config m (some ⟨some g, some e, some ups⟩)).sync_pairs.get
          ⟨i, hi⟩).rsync_options =
        ((generateSyncPairs m).get ⟨i, hj⟩).rsync_options ∧
      ((load_config m (some ⟨some g, some e, some ups⟩)).sync_pairs.get
          ⟨i, hi⟩).description =
        ((generateSyncPairs m).get ⟨i, hj⟩).description ∧
      ((load_config m (some ⟨some g, some e, some ups⟩)).sync_pairs.get ⟨i, hi⟩).enabled =
        (match lookupUserPair ups ((generateSyncPairs m).get ⟨i, hj⟩).name with
         | some up => up.enabled.getD true
         | none => ((generateSyncPairs m).get ⟨i, hj⟩).enabled)) := by
  have hsp : (load_config m (some ⟨some g, some e, some ups⟩)).sync_pairs =
      (generateSyncPairs m).map (applyEnabled ups) := rfl
  refine ⟨rfl, rfl, by rw [hsp, List.length_map], ?_⟩
  intro i hi hj
  have hget : (load_config m (some ⟨some g, some e, some ups⟩)).sync_pairs.get ⟨i, hi⟩ =
      applyEnabled ups ((generateSyncPairs m).get ⟨i, hj⟩) := by
    simp only [hsp, List.get_eq_getElem, List.getElem_map]
  rw [hget]
  cases hl : lookupUserPair ups ((generateSyncPairs m).get ⟨i, hj⟩).name with
  | none =>
      simp only [List.get_eq_getElem] at hl
      simp [applyEnabled, hl]
  | some up =>
      simp only [List.get_eq_getElem] at hl
      simp [applyEnabled, hl]

/-- Witness for claim C3: one data directory `x`, a prior config carrying
new global options, new exclude patterns and a disabled `data_x_to_remote`
pair; the regenerated pair at index 1 keeps its structural fields and takes
only `enabled` from the prior pair. -/
theorem claim_C3_override_merge_witness :
    (load_config
      { local_data_root := "/home/u/doc", local_video_root := "/home/u/doc"
        data_dirs := ["x"], video_dirs := [], one_way_video_dirs := []
        remote_data_base := "/media/t/", remote_video_base := "/media/t/"
        checksum_mode := false }
      (some ⟨some ["-a"], some ["*.bak"],
        some [⟨"data_x_to_remote", some false⟩]⟩)).global_rsync_options = ["-a"] ∧
    (load_config
      { local_data_root := "/home/u/doc", local_video_root := "/home/u/doc"
        data_dirs := ["x"], video_dirs := [], one_way_video_dirs := []
        remote_data_base := "/media/t/", remote_video_base := "/media/t/"
        checksum_mode := false }
      (some ⟨some ["-a"], some ["*.bak"],
        some [⟨"data_x_to_remote", some false⟩]⟩)).exclude_patterns = ["*.bak"] ∧
    ((load_config
      { local_data_root := "/home/u/doc", local_video_root := "/home/u/doc"
        data_dirs := ["x"], video_dirs := [], one_way_video_dirs := []
        remote_data_base := "/media/t/", remote_video_base := "/media/t/"
        checksum_mode := false }
      (some ⟨some ["-a"], some ["*.bak"],
        some [⟨"data_x_to_remote", some false⟩]⟩)).sync_pairs.get ⟨1, by decide⟩).source =
    ((generateSyncPairs
      { local_data_root := "/home/u/doc", local_video_root := "/home/u/doc"
        data_dirs := ["x"], video_dirs := [], one_way_video_dirs := []
        remote_data_base := "/media/t/", remote_video_base := "/media/t/"
        checksum_mode := false }).get ⟨1, by decide⟩).source ∧
    ((load_config
      { local_data_root := "/home/u/doc", local_video_root := "/home/u/doc"
        data_dirs := ["x"], video_dirs := [], one_way_video_dirs := []
        remote_data_base := "/media/t/", remote_video_base := "/media/t/"
        checksum_mode := false }
      (some ⟨some ["-a"], some ["*.bak"],
        some [⟨"data_x_to_remote", some false⟩]⟩)).sync_pairs.get ⟨1, by decide⟩).enabled =
    (match lookupUserPair [⟨"data_x_to_remote", some false⟩]
        ((generateSyncPairs
          { local_data_root := "/home/u/doc", local_video_root := "/home/u/doc"
            data_dirs := ["x"], video_dirs := [], one_way_video_dirs := []
            remote_data_base := "/media/t/", remote_video_base := "/media/t/"
            checksum_mode := false }).get ⟨1, by decide⟩).name with
     | some up => up.enabled.getD true
     | none => ((generateSyncPairs
          { local_data_root := "/home/u/doc", local_video_root := "/home/u/doc"
            data_dirs := ["x"], video_dirs := [], one_way_video_dirs := []
            remote_data_base := "/media/t/", remote_video_base := "/media/t/"
            checksum_mode := false }).get ⟨1, by decide⟩).enabled) := by
  have h := claim_C3_override_merge
    { local_data_root := "/home/u/doc", local_video_root := "/home/u/doc"
      data_dirs := ["x"], video_dirs := [], one_way_video_dirs := []
      remote_data_base := "/media/t/", remote_video_base := "/media/t/"
      checksum_mode := false }
    ["-a"] ["*.bak"] [⟨"data_x_to_remote", some false⟩]
  have h4 := h.2.2.2 1 (by decide) (by decide)
  exact ⟨h.1, h.2.1, h4.2.1, h4.2.2.2.2.2⟩

/-- The loop of `sync_all` (lines 461-481): disabled pairs are skipped,
each enabled pair is handed to `sync_pair` exactly once in order.  `result`
abstracts `sync_pair`'s boolean outcome (validation + rsync exit).  The
first component records the pairs actually attempted, the second the
success count, the third the total count. -/
def sync_all_run (result : SyncPair → Bool) (pairs : List SyncPair) :
    List SyncPair × Nat × Nat :=
  pairs.foldl
    (fun st pair =>
      if pair.enabled then
        (st.1 ++ [pair], st.2.1 + (if result pair then 1 else 0), st.2.2 + 1)
      else st)
    ([], 0, 0)

/-- Return value of `sync_all`: `success_count == total_count`. -/
def sync_all (result : SyncPair → Bool) (pairs : List SyncPair) : Bool :=
  let r := sync_all_run result pairs
  r.2.1 == r.2.2

lemma sync_all_run_aux (result : SyncPair → Bool) :
    ∀ (pairs : List SyncPair) (tr : List SyncPair) (s t : Nat),
      pairs.foldl
        (fun st pair =>
          if pair.enabled then
            (st.1 ++ [pair], st.2.1 + (if result pair then 1 else 0), st.2.2 + 1)
          else st)
        (tr, s, t) =
      (tr ++ pairs.filter (fun p => p.enabled),
       s + ((pairs.filter (fun p => p.enabled)).filter result).length,
       t + (pairs.filter (fun p => p.enabled)).length) := by
  intro pairs
  induction pairs with
  | nil => intro tr s t; simp
  | cons a rest ih =>
      intro tr s t
      cases ha : a.enabled with
      | false => simp [List.foldl_cons, ha, List.filter_cons, ih]
      | true =>
          cases hr : result a with
          | false =>
              simp [List.foldl_cons, ha, hr, ih, List.filter_cons, List.append_assoc]
              omega
          | true =>
              simp [List.foldl_cons, ha, hr, ih, List.filter_cons, List.append_assoc]
              omega

lemma sync_all_run_spec (result : SyncPair → Bool) (pairs : List SyncPair) :
    sync_all_run result pairs =
      (pairs.filter (fun p => p.enabled),
       ((pairs.filter (fun p => p.enabled)).filter result).length,
       (pairs.filter (fun p => p.enabled)).length) := by
  unfold sync_all_run
  rw [sync_all_run_aux]
  simp

/-- Claim C4: `sync_all` skips disabled pairs (excluded from the total),
attempts every enabled pair exactly once in configured order regardless of
earlier failures, returns success iff the success count equals the total
count, and with every pair disabled performs zero attempts and yields
counts (0, 0). -/
theorem claim_C4_sync_all (result : SyncPair → Bool) (pairs : List SyncPair) :
    (sync_all_run result pairs).1 = pairs.filter (fun p => p.enabled) ∧
    (sync_all_run result pairs).2.2 = (pairs.filter (fun p => p.enabled)).length ∧
    (sync_all_run result pairs).2.1 =
      ((pairs.filter (fun p => p.enabled)).filter result).length ∧
    (sync_all result pairs = true ↔
      (sync_all_run result pairs).2.1 = (sync_all_run result pairs).2.2) ∧
    ((∀ p ∈ pairs, p.enabled = false) → sync_all_run result pairs = ([], 0, 0)) := by
  refine ⟨by rw [sync_all_run_spec], by rw [sync_all_run_spec], by rw [sync_all_run_spec],
    ?_, ?_⟩
  · unfold sync_all
    exact beq_iff_eq ..
  · intro hall
    rw [sync_all_run_spec]
    have hnil : pairs.filter (fun p => p.enabled) = [] := by
      rw [List.filter_eq_nil_iff]
      intro p hp
      simp [hall p hp]
    rw [hnil]
    rfl

/-- Witness for claim C4: two disabled pairs and one enabled failing pair
next to one enabled succeeding pair. -/
theorem claim_C4_sync_all_witness :
    (∀ p ∈ [dataToLocalPair
        { local_data_root := "/home/u/doc", local_video_root := "/home/u/doc"
          data_dirs := ["x"], video_dirs := [], one_way_video_dirs := []
          remote_data_base := "/media/t/", remote_video_base := "/media/t/"
          checksum_mode := false } "x",
       dataToRemotePair
        { local_data_root := "/home/u/doc", local_video_root := "/home/u/doc"
          data_dirs := ["x"], video_dirs := [], one_way_video_dirs := []
          remote_data_base := "/media/t/", remote_video_base := "/media/t/"
          checksum_mode := false } "x"].map (fun p => { p with enabled := false }),
      p.enabled = false) ∧
    sync_all_run (fun _ => true)
      ([dataToLocalPair
        { local_data_root := "/home/u/doc", local_video_root := "/home/u/doc"
          data_dirs := ["x"], video_dirs := [], one_way_video_dirs := []
          remote_data_base := "/media/t/", remote_video_base := "/media/t/"
          checksum_mode := false } "x",
       dataToRemotePair
        { local_data_root := "/home/u/doc", local_video_root := "/home/u/doc"
          data_dirs := ["x"], video_dirs := [], one_way_video_dirs := []
          remote_data_base := "/media/t/", remote_video_base := "/media/t/"
          checksum_mode := false } "x"].map (fun p => { p with enabled := false })) =
      ([], 0, 0) := by
  have h := claim_C4_sync_all (fun _ => true)
    ([dataToLocalPair
        { local_data_root := "/home/u/doc", local_video_root := "/home/u/doc"
          data_dirs := ["x"], video_dirs := [], one_way_video_dirs := []
          remote_data_base := "/media/t/", remote_video_base := "/media/t/"
          checksum_mode := false } "x",
       dataToRemotePair
        { local_data_root := "/home/u/doc", local_video_root := "/home/u/doc"
          data_dirs := ["x"], video_dirs := [], one_way_video_dirs := []
          remote_data_base := "/media/t/", remote_video_base := "/media/t/"
          checksum_mode := false } "x"].map (fun p => { p with enabled := false }))
  exact ⟨by decide, h.2.2.2.2 (by decide)⟩

/-- The dispatch tail of `main` (lines 608-627) after the manager is built:
`--list` prints and returns (exit 0); `--pair NAME` walks the configured
pairs, and on the first name match calls `sync_pair` but discards its
boolean result and falls through to a normal return (exit 0); only a
missing name exits 1; without `--pair`, `sync_all` decides exit 0/1.  The
first component records the pairs on which `sync_pair` was invoked, the
second the process exit status. -/
def main_run (result : SyncPair → Bool) (pairs : List SyncPair)
    (list_flag : Bool) (pair_arg : Option String) : List SyncPair × Nat :=
  if list_flag then ([], 0)
  else
    match pair_arg with
    | some pair_name =>
      match pairs.find? (fun p => p.name == pair_name) with
      | some pair => ([pair], 0)
      | none => ([], 1)
    | none =>
      let r := sync_all_run result pairs
      (r.1, if r.2.1 = r.2.2 then 0 else 1)

/-- Counterexample to claim C5: with `--pair data_x_to_local` naming an
existing pair and a `sync_pair` outcome that fails on every pair, `main`
still exits with status 0 (the claim demands status 1): the pair is found
and attempted, but its result is discarded. -/
theorem claim_C5_exit_code_counterexample :
    ((load_config
        { local_data_root := "/home/u/doc", local_video_root := "/home/u/doc"
          data_dirs := ["x"], video_dirs := [], one_way_video_dirs := []
          remote_data_base := "/media/t/", remote_video_base := "/media/t/"
          checksum_mode := false } none).sync_pairs.find?
      (fun p => p.name == "data_x_to_local")).isSome = true ∧
    (main_run (fun _ => false)
      (load_config
        { local_data_root := "/home/u/doc", local_video_root := "/home/u/doc"
          data_dirs := ["x"], video_dirs := [], one_way_video_dirs := []
          remote_data_base := "/media/t/", remote_video_base := "/media/t/"
          checksum_mode := false } none).sync_pairs
      false (some "data_x_to_local")).2 = 0 := by
  decide

/-- Claim C5 as amended: the entry point exits 1 when the requested pair
name is not found, and on the sync-all path exits 0 exactly on full
success; but when `--pair` names an existing pair, the process exits 0
regardless of that pair's sync outcome (the boolean result of the single
attempted sync is discarded). -/
theorem claim_C5_exit_code_amended (result : SyncPair → Bool) (pairs : List SyncPair)
    (pair_name : String) :
    (pairs.find? (fun p => p.name == pair_name) = none →
      main_run result pairs false (some pair_name) = ([], 1)) ∧
    (∀ pair, pairs.find? (fun p => p.name == pair_name) = some pair →
      main_run result pairs false (some pair_name) = ([pair], 0)) ∧
    ((main_run result pairs false none).2 = 0 ↔ sync_all result pairs = true) := by
  refine ⟨fun h => by simp [main_run, h], fun pair h => by simp [main_run, h], ?_⟩
  simp only [main_run, if_false, Bool.false_eq_true, sync_all]
  by_cases h : (sync_all_run result pairs).2.1 = (sync_all_run result pairs).2.2
  · simp [h]
  · simp [h]

/-- Witness for claim C5 (amended), at one configured data directory:
an unknown name exits 1, the existing remote→local pair exits 0 even
though every sync fails, and the sync-all path exit matches `sync_all`. -/
theorem claim_C5_exit_code_amended_witness :
    main_run (fun _ => false)
      (load_config
        { local_data_root := "/home/u/doc", local_video_root := "/home/u/doc"
          data_dirs := ["x"], video_dirs := [], one_way_video_dirs := []
          remote_data_base := "/media/t/", remote_video_base := "/media/t/"
          checksum_mode := false } none).sync_pairs
      false (some "nope") = ([], 1) ∧
    main_run (fun _ => false)
      (load_config
        { local_data_root := "/home/u/doc", local_video_root := "/home/u/doc"
          data_dirs := ["x"], video_dirs := [], one_way_video_dirs := []
          remote_data_base := "/media/t/", remote_video_base := "/media/t/"
          checksum_mode := false } none).sync_pairs
      false (some "data_x_to_local") =
      ([dataToLocalPair
        { local_data_root := "/home/u/doc", local_video_root := "/home/u/doc"
          data_dirs := ["x"], video_dirs := [], one_way_video_dirs := []
          remote_data_base := "/media/t/", remote_video_base := "/media/t/"
          checksum_mode := false } "x"], 0) ∧
    ((main_run (fun _ => false)
      (load_config
        { local_data_root := "/home/u/doc", local_video_root := "/home/u/doc"
          data_dirs := ["x"], video_dirs := [], one_way_video_dirs := []
          remote_data_base := "/media/t/", remote_video_base := "/media/t/"
          checksum_mode := false } none).sync_pairs
      false none).2 = 0 ↔ sync_all (fun _ => false)
      (load_config
        { local_data_root := "/home/u/doc", local_video_root := "/home/u/doc"
          data_dirs := ["x"], video_dirs := [], one_way_video_dirs := []
          remote_data_base := "/media/t/", remote_video_base := "/media/t/"
          checksum_mode := false } none).sync_pairs = true) := by
  have h := claim_C5_exit_code_amended (fun _ => false)
    (load_config
      { local_data_root := "/home/u/doc", local_video_root := "/home/u/doc"
        data_dirs := ["x"], video_dirs := [], one_way_video_dirs := []
        remote_data_base := "/media/t/", remote_video_base := "/media/t/"
        checksum_mode := false } none).sync_pairs
  exact ⟨(h "nope").1 (by decide),
    (h "data_x_to_local").2.1 _ (by decide), (h "nope").2.2⟩

lemma head?_dropWhile_false {α : Type} (p : α → Bool) :
    ∀ (l : List α) (a : α), (l.dropWhile p).head? = some a → p a = false := by
  intro l
  induction l with
  | nil => intro a h; cases h
  | cons b t ih =>
      intro a h
      by_cases hb : p b = true
      · rw [List.dropWhile_cons_of_pos hb] at h
        exact ih a h
      · rw [List.dropWhile_cons_of_neg hb] at h
        have hba : b = a := Option.some.inj h
        subst hba
        exact Bool.not_eq_true _ |>.mp hb

/-- After `rstrip("/")` a string never ends in a separator. -/
lemma rstripSlash_getLast (s : String) : (rstripSlash s).data.getLast? ≠ some '/' := by
  unfold rstripSlash
  rw [show (String.mk ((s.data.reverse.dropWhile (fun c => c == '/')).reverse)).data =
    (s.data.reverse.dropWhile (fun c => c == '/')).reverse from rfl]
  rw [List.getLast?_reverse]
  intro h
  have hfalse := head?_dropWhile_false (fun c => c == '/') s.data.reverse '/' h
  simp at hfalse

/-- Function `build_rsync_command` (lines 330-365): the rsync argument vector built
from the pair's options, the reporting flags added when absent, the
exclude patterns, the optional dry-run flag and the normalized paths. -/
def build_rsync_command (exclude_patterns : List String) (source destination : String)
    (rsync_options : List String) (dry_run : Bool) : List String :=
  let cmd := ["rsync"]
  let cmd := cmd ++ rsync_options
  let cmd := if "-v" ∈ rsync_options ∨ "--verbose" ∈ rsync_options then cmd
    else cmd ++ ["-v"]
  let cmd := if "--stats" ∈ rsync_options then cmd else cmd ++ ["--stats"]
  let cmd := if "--itemize-changes" ∈ rsync_options then cmd
    else cmd ++ ["--itemize-changes"]
  let cmd := exclude_patterns.foldl (fun acc pattern => acc ++ ["--exclude", pattern]) cmd
  let cmd := if dry_run then cmd ++ ["--dry-run"] else cmd
  let source_normalized := rstripSlash source ++ "/"
  let destination_normalized := rstripSlash destination
  cmd ++ [source_normalized, destination_normalized]

/-- Claim C6: the built argument vector is exactly tool name, pair options,
conditionally-added verbose/stats/itemize flags (only when the pair's own
options lack them), one `--exclude` per configured pattern in order,
`--dry-run` iff dry-run mode, then the source with exactly one trailing
separator and the destination with none. -/
theorem claim_C6_build_command (exclude_patterns : List String)
    (source destination : String) (rsync_options : List String) (dry_run : Bool) :
    build_rsync_command exclude_patterns source destination rsync_options dry_run =
      ["rsync"] ++ rsync_options ++
      (if "-v" ∈ rsync_options ∨ "--verbose" ∈ rsync_options then [] else ["-v"]) ++
      (if "--stats" ∈ rsync_options then [] else ["--stats"]) ++
      (if "--itemize-changes" ∈ rsync_options then [] else ["--itemize-changes"]) ++
      exclude_patterns.flatMap (fun pattern => ["--exclude", pattern]) ++
      (if dry_run then ["--dry-run"] else []) ++
      [rstripSlash source ++ "/", rstripSlash destination] ∧
    (rstripSlash source ++ "/").data.getLast? = some '/' ∧
    (rstripSlash source).data.getLast? ≠ some '/' ∧
    (rstripSlash destination).data.getLast? ≠ some '/' := by
  refine ⟨?_, ?_, rstripSlash_getLast source, rstripSlash_getLast destination⟩
  · unfold build_rsync_command
    dsimp only
    rw [foldl_append_eq_flatMap]
    split_ifs <;> simp [List.append_assoc]
  · rw [string_data_append, List.getLast?_append]
    rfl

/-- Witness for claim C6 on concrete inputs (the negated-conclusion parts
evaluated): a doubled-slash source is normalized to one trailing slash, the
destination slash is stripped, and the flag/exclude layout is as stated. -/
theorem claim_C6_build_command_witness :
    build_rsync_command ["*.tmp", "*.log"] "/a//" "/b/" ["-av", "--delete"] true =
      ["rsync", "-av", "--delete", "-v", "--stats", "--itemize-changes",
       "--exclude", "*.tmp", "--exclude", "*.log", "--dry-run", "/a/", "/b"] :=
  (claim_C6_build_command ["*.tmp", "*.log"] "/a//" "/b/" ["-av", "--delete"] true).1.trans
    (by decide)

/-- Python's substring operator `pat in s`, on character lists. -/
def listContainsSub (pat : List Char) : List Char → Bool
  | [] => pat.isEmpty
  | c :: rest => pat.isPrefixOf (c :: rest) || listContainsSub pat rest

/-- Python `pat in line` for strings. -/
def containsSub (line pat : String) : Bool :=
  listContainsSub pat.data line.data

/-- Python `s.startswith(pre)`. -/
def strStartsWith (s pre : String) : Bool :=
  pre.data.isPrefixOf s.data

/-- Python `s.strip()`: drop leading and trailing whitespace. -/
def pyStrip (s : String) : String :=
  String.mk (((s.data.dropWhile Char.isWhitespace).reverse.dropWhile
    Char.isWhitespace).reverse)

/-- Python `s.split(sep)` on character lists for a one-character separator:
always at least one (possibly empty) field. -/
def splitOnChar (sep : Char) : List Char → List (List Char)
  | [] => [[]]
  | c :: rest =>
    let r := splitOnChar sep rest
    if c = sep then [] :: r
    else
      match r with
      | [] => [[c]]
      | h :: t => (c :: h) :: t

/-- Python `output.strip().split("\n")` as used in `sync_pair`. -/
def outputLines (output : String) : List String :=
  (splitOnChar (Char.ofNat 10) (pyStrip output).data).map String.mk

/-- The itemize-changes test in `sync_pair`: the (stripped) line starts
with `>`, `<`, `c`, `h` or `*`. -/
def isItemizeLine (line : String) : Bool :=
  strStartsWith line ">" || strStartsWith line "<" || strStartsWith line "c" ||
    strStartsWith line "h" || strStartsWith line "*"

/-- The loop state of the output scan in `sync_pair`. -/
structure ScanState where
  file_changes : List String
  stats_section : Bool
  stats_lines : List String
deriving Repr, DecidableEq

/-- One iteration of the line loop in `sync_pair` (lines 422-434): strip
the line, skip empty lines, collect itemize lines, open the statistics
section on the three stat markers, and inside it collect colon-bearing or
`sent `/`total size` lines. -/
def scanLine (st : ScanState) (raw : String) : ScanState :=
  let line := pyStrip raw
  if line = "" then st
  else if isItemizeLine line then
    { st with file_changes := st.file_changes ++ [line] }
  else if containsSub line "Number of files" || containsSub line "Total file size"
      || containsSub line "Total transferred file size" then
    { st with stats_section := true, stats_lines := st.stats_lines ++ [line] }
  else if st.stats_section && (containsSub line ":" || strStartsWith line "sent "
      || strStartsWith line "total size") then
    { st with stats_lines := st.stats_lines ++ [line] }
  else st

/-- The success-report classification of `sync_pair` (lines 436-455). -/
inductive SyncReport where
  | filesChanged (shown : List String) (more : Nat)
  | statistics (shown : List String)
  | noFilesNeeded (summary : List String)
deriving Repr, DecidableEq

/-- Classify a successful rsync run's stdout as `sync_pair` does: itemize
lines win (first 20 shown, remainder counted), then statistics lines
(first 10 shown), otherwise "no files needed transfer" with the
`sent `/`total size` summary lines. -/
def classifyOutput (output : String) : SyncReport :=
  let st := (outputLines output).foldl scanLine ⟨[], false, []⟩
  if st.file_changes ≠ [] then
    SyncReport.filesChanged (st.file_changes.take 20)
      (if st.file_changes.length > 20 then st.file_changes.length - 20 else 0)
  else if st.stats_lines ≠ [] then
    SyncReport.statistics (st.stats_lines.take 10)
  else
    SyncReport.noFilesNeeded
      ((outputLines output).filter
        (fun l => strStartsWith l "sent " || strStartsWith l "total size"))

/-- The stripped, nonempty itemize lines of an output, in order. -/
def itemizeLinesOf (output : String) : List String :=
  ((outputLines output).map pyStrip).filter
    (fun l => (l != "") && isItemizeLine l)

/-- The statistics lines collected by the scan. -/
def statsLinesOf (output : String) : List String :=
  ((outputLines output).foldl scanLine ⟨[], false, []⟩).stats_lines

lemma scanLine_file_changes (st : ScanState) (raw : String) :
    (scanLine st raw).file_changes =
      st.file_changes ++
        (if (pyStrip raw != "") && isItemizeLine (pyStrip raw)
         then [pyStrip raw] else []) := by
  unfold scanLine
  dsimp only
  split_ifs with h1 h2 h3 h4 <;> simp_all

lemma scan_file_changes_aux :
    ∀ (lines : List String) (st : ScanState),
      (lines.foldl scanLine st).file_changes =
        st.file_changes ++
          (lines.map pyStrip).filter (fun l => (l != "") && isItemizeLine l) := by
  intro lines
  induction lines with
  | nil => intro st; simp
  | cons raw rest ih =>
      intro st
      rw [List.foldl_cons, ih, scanLine_file_changes]
      by_cases h : ((pyStrip raw != "") && isItemizeLine (pyStrip raw)) = true
      · simp [List.map_cons, List.filter_cons, h, List.append_assoc]
      · simp only [Bool.not_eq_true] at h
        simp [List.map_cons, List.filter_cons, h, List.append_assoc]

lemma scan_file_changes (output : String) :
    ((outputLines output).foldl scanLine ⟨[], false, []⟩).file_changes =
      itemizeLinesOf output := by
  rw [scan_file_changes_aux]
  rfl

lemma scanLine_stats_ne_nil (st : ScanState) (raw : String)
    (h : st.stats_lines ≠ []) : (scanLine st raw).stats_lines ≠ [] := by
  unfold scanLine
  dsimp only
  split_ifs <;> simp_all

lemma foldl_scan_stats_ne_nil :
    ∀ (lines : List String) (st : ScanState),
      st.stats_lines ≠ [] → (lines.foldl scanLine st).stats_lines ≠ [] := by
  intro lines
  induction lines with
  | nil => intro st h; exact h
  | cons raw rest ih =>
      intro st h
      rw [List.foldl_cons]
      exact ih _ (scanLine_stats_ne_nil st raw h)

lemma scanLine_stats_trigger (st : ScanState) (raw : String)
    (h1 : pyStrip raw ≠ "") (h2 : isItemizeLine (pyStrip raw) = false)
    (h3 : (containsSub (pyStrip raw) "Number of files"
      || containsSub (pyStrip raw) "Total file size") = true) :
    (scanLine st raw).stats_lines ≠ [] := by
  unfold scanLine
  dsimp only
  have h3' : (containsSub (pyStrip raw) "Number of files"
      || containsSub (pyStrip raw) "Total file size"
      || containsSub (pyStrip raw) "Total transferred file size") = true := by
    rcases Bool.or_eq_true_iff.mp h3 with h | h <;> simp [h]
  rw [if_neg h1, if_neg (by simp [h2]), if_pos h3']
  simp

/-- Claim C7: itemize-marker lines, scanned in order, form the
files-changed report (first 20 shown plus remainder count); with none, the
collected statistics lines are reported; with neither, the outcome is "no
files needed transfer"; and any nonempty non-itemize line containing
"Number of files" or "Total file size" starts (and lands in) the
statistics section. -/
theorem claim_C7_classification (output : String) :
    (itemizeLinesOf output ≠ [] →
      classifyOutput output =
        SyncReport.filesChanged ((itemizeLinesOf output).take 20)
          (if (itemizeLinesOf output).length > 20
           then (itemizeLinesOf output).length - 20 else 0)) ∧
    (itemizeLinesOf output = [] → statsLinesOf output ≠ [] →
      classifyOutput output = SyncReport.statistics ((statsLinesOf output).take 10)) ∧
    (itemizeLinesOf output = [] → statsLinesOf output = [] →
      classifyOutput output =
        SyncReport.noFilesNeeded ((outputLines output).filter
          (fun l => strStartsWith l "sent " || strStartsWith l "total size"))) ∧
    (∀ raw ∈ outputLines output,
      pyStrip raw ≠ "" → isItemizeLine (pyStrip raw) = false →
      (containsSub (pyStrip raw) "Number of files"
        || containsSub (pyStrip raw) "Total file size") = true →
      statsLinesOf output ≠ []) := by
  refine ⟨?_, ?_, ?_, ?_⟩
  · intro hne
    unfold classifyOutput
    dsimp only
    rw [scan_file_changes output]
    rw [if_pos hne]
  · intro hnil hstats
    unfold classifyOutput
    dsimp only
    rw [scan_file_changes output, if_neg (by simp [hnil])]
    unfold statsLinesOf at hstats
    rw [if_pos hstats]
    rfl
  · intro hnil hstats
    unfold classifyOutput
    dsimp only
    rw [scan_file_changes output, if_neg (by simp [hnil])]
    unfold statsLinesOf at hstats
    rw [if_neg (by simp [hstats])]
  · intro raw hmem h1 h2 h3
    unfold statsLinesOf
    rcases List.mem_iff_append.mp hmem with ⟨l1, l2, heq⟩
    rw [heq, List.foldl_append, List.foldl_cons]
    exact foldl_scan_stats_ne_nil l2 _
      (scanLine_stats_trigger _ raw h1 h2 h3)

/-- Witness for claim C7: an output with two itemize lines classifies as a
files-changed report with those two entries in order; a statistics-only
output classifies as statistics; a summary-only output classifies as "no
files needed transfer". -/
theorem claim_C7_classification_witness :
    classifyOutput (">f+++++++ foo.txt\n<f.st...... bar.txt" ++
        "\nsent 100 bytes  received 20 bytes") =
      SyncReport.filesChanged [">f+++++++ foo.txt", "<f.st...... bar.txt"] 0 ∧
    classifyOutput "Number of files: 3\nsent 100 bytes  received 20 bytes" =
      SyncReport.statistics
        ["Number of files: 3", "sent 100 bytes  received 20 bytes"] ∧
    classifyOutput "sent 100 bytes  received 20 bytes" =
      SyncReport.noFilesNeeded ["sent 100 bytes  received 20 bytes"] := by
  refine ⟨?_, ?_, ?_⟩
  · have h := (claim_C7_classification (">f+++++++ foo.txt\n<f.st...... bar.txt" ++
        "\nsent 100 bytes  received 20 bytes")).1 (by decide)
    rw [h]
    decide
  · have h := (claim_C7_classification
        "Number of files: 3\nsent 100 bytes  received 20 bytes").2.1
      (by decide) (by decide)
    rw [h]
    decide
  · have h := (claim_C7_classification "sent 100 bytes  received 20 bytes").2.2.1
      (by decide) (by decide)
    rw [h]
    decide

/-- Outcome of `os.path.exists` + `os.listdir` on one remote base:
the base may be absent, listing may raise `PermissionError`, or it
yields the immediate subdirectories. -/
inductive ListDirResult where
  | absent
  | denied
  | ok (dirs : List String)
deriving Repr, DecidableEq

/-- What `check_unsynced_directories` reports for one base. -/
inductive AuditReport where
  | skipped
  | warningNoAccess
  | unsynced (dirs : List String)
deriving Repr, DecidableEq

/-- One half of `check_unsynced_directories` (lines 50-105): skip an absent
base, warn (and find nothing) on `PermissionError`, otherwise report the
listed subdirectories not contained in the configured name set.  The
function is total: the caught `PermissionError` is the only listing
failure the code handles. -/
def auditBase (r : ListDirResult) (configured : List String) : AuditReport :=
  match r with
  | ListDirResult.absent => AuditReport.skipped
  | ListDirResult.denied => AuditReport.warningNoAccess
  | ListDirResult.ok remote_dirs =>
      AuditReport.unsynced (remote_dirs.filter (fun d => !(configured.contains d)))

/-- Function `check_unsynced_directories`: the data base is audited against
`data_dirs`, the video base against `video_dirs + one_way_video_dirs`. -/
def check_unsynced_directories (rData rVideo : ListDirResult)
    (data_dirs video_dirs one_way_video_dirs : List String) :
    AuditReport × AuditReport :=
  (auditBase rData data_dirs,
   auditBase rVideo (video_dirs ++ one_way_video_dirs))

/-- Claim C8: an absent base is skipped (no error), a permission failure is
a warning with nothing found, and an accessible base reports exactly the
set difference between its listed subdirectories and the configured names
(data names for the data base, video plus one-way names for the video
base). -/
theorem claim_C8_audit (data_dirs video_dirs one_way_video_dirs : List String) :
    (∀ rv, (check_unsynced_directories ListDirResult.absent rv
        data_dirs video_dirs one_way_video_dirs).1 = AuditReport.skipped) ∧
    (∀ rd, (check_unsynced_directories rd ListDirResult.absent
        data_dirs video_dirs one_way_video_dirs).2 = AuditReport.skipped) ∧
    (∀ rv, (check_unsynced_directories ListDirResult.denied rv
        data_dirs video_dirs one_way_video_dirs).1 = AuditReport.warningNoAccess) ∧
    (∀ rd, (check_unsynced_directories rd ListDirResult.denied
        data_dirs video_dirs one_way_video_dirs).2 = AuditReport.warningNoAccess) ∧
    (∀ rv dirs, ∃ us,
      (check_unsynced_directories (ListDirResult.ok dirs) rv
        data_dirs video_dirs one_way_video_dirs).1 = AuditReport.unsynced us ∧
      ∀ d, d ∈ us ↔ (d ∈ dirs ∧ d ∉ data_dirs)) ∧
    (∀ rd dirs, ∃ us,
      (check_unsynced_directories rd (ListDirResult.ok dirs)
        data_dirs video_dirs one_way_video_dirs).2 = AuditReport.unsynced us ∧
      ∀ d, d ∈ us ↔ (d ∈ dirs ∧ ¬(d ∈ video_dirs ∨ d ∈ one_way_video_dirs))) := by
  refine ⟨fun _ => rfl, fun _ => rfl, fun _ => rfl, fun _ => rfl, ?_, ?_⟩
  · intro rv dirs
    refine ⟨dirs.filter (fun d => !(data_dirs.contains d)), rfl, ?_⟩
    intro d
    simp [List.mem_filter]
  · intro rd dirs
    refine ⟨dirs.filter
      (fun d => !((video_dirs ++ one_way_video_dirs).contains d)), rfl, ?_⟩
    intro d
    simp [List.mem_filter]

/-- POSIX `os.path.join(base, name)` for a single component. -/
def pjoin (base name : String) : String :=
  if strStartsWith name "/" then name
  else if base = "" then name
  else if base.data.getLast? = some '/' then base ++ name
  else base ++ "/" ++ name

/-- The body of each creation loop in `setup_sync_directories`: create the
joined path only if it does not already exist (`os.makedirs` modeled as
adding the path to the filesystem's path set). -/
def mkdirIfMissing (fs : List String) (dir_path : String) : List String :=
  if dir_path ∈ fs then fs else fs ++ [dir_path]

/-- One creation loop of `setup_sync_directories`. -/
def createDirs (fs : List String) (base : String) (dirs : List String) : List String :=
  dirs.foldl (fun fs dir_name => mkdirIfMissing fs (pjoin base dir_name)) fs

/-- Function `setup_sync_directories` (lines 20-48): create the data directories
under the data base, then the video and one-way directories under the
video base, then run `check_unsynced_directories`.  `listAfter` abstracts
`os.listdir` and is applied to the post-creation filesystem: the audit
observes the mutated state. -/
def setup_sync_directories (fs : List String)
    (data_dirs video_dirs one_way_video_dirs : List String)
    (remote_data_base remote_video_base : String)
    (listAfter : List String → String → ListDirResult) :
    List String × AuditReport × AuditReport :=
  let fs := createDirs fs remote_data_base data_dirs
  let fs := createDirs fs remote_video_base video_dirs
  let fs := createDirs fs remote_video_base one_way_video_dirs
  (fs,
   check_unsynced_directories (listAfter fs remote_data_base)
     (listAfter fs remote_video_base) data_dirs video_dirs one_way_video_dirs)

lemma mem_mkdirIfMissing (fs : List String) (q p : String) (h : p ∈ fs) :
    p ∈ mkdirIfMissing fs q := by
  unfold mkdirIfMissing
  split_ifs with hq
  · exact h
  · exact List.mem_append_left _ h

lemma mem_createDirs_of_mem (base : String) :
    ∀ (dirs : List String) (fs : List String) (p : String),
      p ∈ fs → p ∈ createDirs fs base dirs := by
  intro dirs
  induction dirs with
  | nil => intro fs p h; exact h
  | cons n rest ih =>
      intro fs p h
      exact ih _ p (mem_mkdirIfMissing fs (pjoin base n) p h)

lemma self_mem_mkdirIfMissing (fs : List String) (q : String) :
    q ∈ mkdirIfMissing fs q := by
  unfold mkdirIfMissing
  split_ifs with hq
  · exact hq
  · exact List.mem_append_right _ (List.mem_singleton.mpr rfl)

lemma pjoin_mem_createDirs (base : String) :
    ∀ (dirs : List String) (fs : List String) (n : String), n ∈ dirs →
      pjoin base n ∈ createDirs fs base dirs := by
  intro dirs
  induction dirs with
  | nil => intro fs n h; cases h
  | cons a rest ih =>
      intro fs n h
      rcases List.mem_cons.mp h with rfl | hrest
      · exact mem_createDirs_of_mem base rest _ _ (self_mem_mkdirIfMissing fs (pjoin base n))
      · exact ih _ n hrest

/-- Claim C10: before the audit runs, setup creates under the matching
remote base every configured data, video and one-way directory not already
present, so at audit time every configured name exists under its base; the
filesystem only grows, the audit is evaluated on the post-creation state,
and when some configured directory was missing the remote state is
mutated. -/
theorem claim_C10_setup (fs : List String)
    (data_dirs video_dirs one_way_video_dirs : List String)
    (remote_data_base remote_video_base : String)
    (listAfter : List String → String → ListDirResult) :
    (∀ n ∈ data_dirs, pjoin remote_data_base n ∈
      (setup_sync_directories fs data_dirs video_dirs one_way_video_dirs
        remote_data_base remote_video_base listAfter).1) ∧
    (∀ n ∈ video_dirs, pjoin remote_video_base n ∈
      (setup_sync_directories fs data_dirs video_dirs one_way_video_dirs
        remote_data_base remote_video_base listAfter).1) ∧
    (∀ n ∈ one_way_video_dirs, pjoin remote_video_base n ∈
      (setup_sync_directories fs data_dirs video_dirs one_way_video_dirs
        remote_data_base remote_video_base listAfter).1) ∧
    (∀ p ∈ fs, p ∈
      (setup_sync_directories fs data_dirs video_dirs one_way_video_dirs
        remote_data_base remote_video_base listAfter).1) ∧
    ((setup_sync_directories fs data_dirs video_dirs one_way_video_dirs
        remote_data_base remote_video_base listAfter).2 =
      check_unsynced_directories
        (listAfter (setup_sync_directories fs data_dirs video_dirs one_way_video_dirs
          remote_data_base remote_video_base listAfter).1 remote_data_base)
        (listAfter (setup_sync_directories fs data_dirs video_dirs one_way_video_dirs
          remote_data_base remote_video_base listAfter).1 remote_video_base)
        data_dirs video_dirs one_way_video_dirs) ∧
    ((∃ n ∈ data_dirs, pjoin remote_data_base n ∉ fs) →
      (setup_sync_directories fs data_dirs video_dirs one_way_video_dirs
        remote_data_base remote_video_base listAfter).1 ≠ fs) := by
  refine ⟨?_, ?_, ?_, ?_, rfl, ?_⟩
  · intro n hn
    exact mem_createDirs_of_mem _ _ _ _
      (mem_createDirs_of_mem _ _ _ _ (pjoin_mem_createDirs _ _ _ _ hn))
  · intro n hn
    exact mem_createDirs_of_mem _ _ _ _ (pjoin_mem_createDirs _ _ _ _ hn)
  · intro n hn
    exact pjoin_mem_createDirs _ _ _ _ hn
  · intro p hp
    exact mem_createDirs_of_mem _ _ _ _
      (mem_createDirs_of_mem _ _ _ _ (mem_createDirs_of_mem _ _ _ _ hp))
  · rintro ⟨n, hn, hmiss⟩ heq
    apply hmiss
    rw [← heq]
    exact mem_createDirs_of_mem _ _ _ _
      (mem_createDirs_of_mem _ _ _ _ (pjoin_mem_createDirs _ _ _ _ hn))

/-- Witness for claim C10: starting from an empty filesystem with one name
per list, all three joined paths exist after setup and the state changed. -/
theorem claim_C10_setup_witness :
    pjoin "/r/" "a" ∈
      (setup_sync_directories [] ["a"] ["b"] ["c"] "/r/" "/r/"
        (fun _ _ => ListDirResult.absent)).1 ∧
    pjoin "/r/" "b" ∈
      (setup_sync_directories [] ["a"] ["b"] ["c"] "/r/" "/r/"
        (fun _ _ => ListDirResult.absent)).1 ∧
    pjoin "/r/" "c" ∈
      (setup_sync_directories [] ["a"] ["b"] ["c"] "/r/" "/r/"
        (fun _ _ => ListDirResult.absent)).1 ∧
    (setup_sync_directories [] ["a"] ["b"] ["c"] "/r/" "/r/"
        (fun _ _ => ListDirResult.absent)).1 ≠ [] := by
  have h := claim_C10_setup [] ["a"] ["b"] ["c"] "/r/" "/r/"
    (fun _ _ => ListDirResult.absent)
  exact ⟨h.1 "a" (by decide), h.2.1 "b" (by decide), h.2.2.1 "c" (by decide),
    h.2.2.2.2.2 ⟨"a", by decide, by decide⟩⟩

lemma getLast_append_right (a n : String) (hn : n.data ≠ []) :
    (a ++ n).data.getLast? = n.data.getLast? := by
  rw [string_data_append, List.getLast?_append]
  obtain ⟨c, hc⟩ := Option.isSome_iff_exists.mp (List.getLast?_isSome.mpr hn)
  rw [hc]
  rfl

lemma slash_append_getLast (s : String) : (s ++ "/").data.getLast? = some '/' := by
  rw [string_data_append, List.getLast?_append]
  rfl

lemma record_path_no_trailing (base d : String) (hd1 : d ≠ "")
    (hd2 : d.data.getLast? ≠ some '/') :
    (rstripSlash base ++ "/" ++ d).data.getLast? ≠ some '/' := by
  have hdata : d.data ≠ [] := fun hc => hd1 (String.ext hc)
  rw [getLast_append_right _ d hdata]
  exact hd2

/-- Counterexample to claim C9: in the generated config for one data
directory `x`, the stored SyncPair source is `/media/t/x` — it does not
carry the trailing separator the claim requires of every record. -/
theorem claim_C9_record_sep_counterexample :
    ((generateSyncPairs
      { local_data_root := "/home/u/doc", local_video_root := "/home/u/doc"
        data_dirs := ["x"], video_dirs := [], one_way_video_dirs := []
        remote_data_base := "/media/t/", remote_video_base := "/media/t/"
        checksum_mode := false }).head?.map (fun p => p.source)) =
      some "/media/t/x" ∧
    ¬ ("/media/t/x".data.getLast? = some '/') := by
  decide

/-- Claim C9 as amended: SyncPair records store both paths as the
separator-stripped base joined to the directory name by one separator (the
stripped base never ends in a separator, so the join introduces no
duplicate separator), and neither record path carries a trailing
separator; the source's trailing separator is added, and the destination's
stripped, only at rsync-command build time. -/
theorem claim_C9_path_normalization_amended (m : Manager)
    (hnames : ∀ n ∈ m.data_dirs ++ m.video_dirs ++ m.one_way_video_dirs,
      n ≠ "" ∧ n.data.getLast? ≠ some '/') :
    ∀ p ∈ generateSyncPairs m,
      (∃ b b' n, (rstripSlash b).data.getLast? ≠ some '/' ∧
        (rstripSlash b').data.getLast? ≠ some '/' ∧
        p.source = rstripSlash b ++ "/" ++ n ∧
        p.destination = rstripSlash b' ++ "/" ++ n) ∧
      p.source.data.getLast? ≠ some '/' ∧
      p.destination.data.getLast? ≠ some '/' ∧
      (rstripSlash p.source ++ "/").data.getLast? = some '/' ∧
      (rstripSlash p.source).data.getLast? ≠ some '/' ∧
      (rstripSlash p.destination).data.getLast? ≠ some '/' := by
  intro p hp
  rcases mem_generateSyncPairs.mp hp with ⟨d, hd, rfl | rfl⟩ | ⟨v, hv, rfl | rfl⟩ |
    ⟨w, hw, rfl⟩
  · obtain ⟨hn1, hn2⟩ := hnames d (List.mem_append_left _ (List.mem_append_left _ hd))
    exact ⟨⟨_, _, _, rstripSlash_getLast _, rstripSlash_getLast _, rfl, rfl⟩,
      record_path_no_trailing _ _ hn1 hn2, record_path_no_trailing _ _ hn1 hn2,
      slash_append_getLast _, rstripSlash_getLast _, rstripSlash_getLast _⟩
  · obtain ⟨hn1, hn2⟩ := hnames d (List.mem_append_left _ (List.mem_append_left _ hd))
    exact ⟨⟨_, _, _, rstripSlash_getLast _, rstripSlash_getLast _, rfl, rfl⟩,
      record_path_no_trailing _ _ hn1 hn2, record_path_no_trailing _ _ hn1 hn2,
      slash_append_getLast _, rstripSlash_getLast _, rstripSlash_getLast _⟩
  · obtain ⟨hn1, hn2⟩ := hnames v (List.mem_append_left _ (List.mem_append_right _ hv))
    exact ⟨⟨_, _, _, rstripSlash_getLast _, rstripSlash_getLast _, rfl, rfl⟩,
      record_path_no_trailing _ _ hn1 hn2, record_path_no_trailing _ _ hn1 hn2,
      slash_append_getLast _, rstripSlash_getLast _, rstripSlash_getLast _⟩
  · obtain ⟨hn1, hn2⟩ := hnames v (List.mem_append_left _ (List.mem_append_right _ hv))
    exact ⟨⟨_, _, _, rstripSlash_getLast _, rstripSlash_getLast _, rfl, rfl⟩,
      record_path_no_trailing _ _ hn1 hn2, record_path_no_trailing _ _ hn1 hn2,
      slash_append_getLast _, rstripSlash_getLast _, rstripSlash_getLast _⟩
  · obtain ⟨hn1, hn2⟩ := hnames w (List.mem_append_right _ hw)
    exact ⟨⟨_, _, _, rstripSlash_getLast _, rstripSlash_getLast _, rfl, rfl⟩,
      record_path_no_trailing _ _ hn1 hn2, record_path_no_trailing _ _ hn1 hn2,
      slash_append_getLast _, rstripSlash_getLast _, rstripSlash_getLast _⟩

/-- Witness for claim C9 (amended) at one data directory `x`: the stored
paths end in `x`, not in a separator, and the command-build normalization
of the stored source ends in exactly one separator. -/
theorem claim_C9_path_normalization_amended_witness :
    (dataToLocalPair
      { local_data_root := "/home/u/doc", local_video_root := "/home/u/doc"
        data_dirs := ["x"], video_dirs := [], one_way_video_dirs := []
        remote_data_base := "/media/t/", remote_video_base := "/media/t/"
        checksum_mode := false } "x").source.data.getLast? ≠ some '/' ∧
    (dataToLocalPair
      { local_data_root := "/home/u/doc", local_video_root := "/home/u/doc"
        data_dirs := ["x"], video_dirs := [], one_way_video_dirs := []
        remote_data_base := "/media/t/", remote_video_base := "/media/t/"
        checksum_mode := false } "x").destination.data.getLast? ≠ some '/' ∧
    (rstripSlash (dataToLocalPair
      { local_data_root := "/home/u/doc", local_video_root := "/home/u/doc"
        data_dirs := ["x"], video_dirs := [], one_way_video_dirs := []
        remote_data_base := "/media/t/", remote_video_base := "/media/t/"
        checksum_mode := false } "x").source ++ "/").data.getLast? = some '/' := by
  have h := claim_C9_path_normalization_amended
    { local_data_root := "/home/u/doc", local_video_root := "/home/u/doc"
      data_dirs := ["x"], video_dirs := [], one_way_video_dirs := []
      remote_data_base := "/media/t/", remote_video_base := "/media/t/"
      checksum_mode := false }
    (by decide)
    (dataToLocalPair
      { local_data_root := "/home/u/doc", local_video_root := "/home/u/doc"
        data_dirs := ["x"], video_dirs := [], one_way_video_dirs := []
        remote_data_base := "/media/t/", remote_video_base := "/media/t/"
        checksum_mode := false } "x")
    (by decide)
  exact ⟨h.2.1, h.2.2.1, h.2.2.2.1⟩

/-- Witness for claim C8: a data base listing `alpha` and `beta` with only
`alpha` configured reports membership exactly for `beta`; an absent video
base is skipped; a denied data base only warns. -/
theorem claim_C8_audit_witness :
    (∃ us, (check_unsynced_directories (ListDirResult.ok ["alpha", "beta"])
        ListDirResult.absent ["alpha"] ["v"] ["w"]).1 = AuditReport.unsynced us ∧
      ("beta" ∈ us ↔ ("beta" ∈ ["alpha", "beta"] ∧ "beta" ∉ ["alpha"])) ∧
      ("alpha" ∈ us ↔ ("alpha" ∈ ["alpha", "beta"] ∧ "alpha" ∉ ["alpha"]))) ∧
    (check_unsynced_directories (ListDirResult.ok ["alpha", "beta"])
      ListDirResult.absent ["alpha"] ["v"] ["w"]).2 = AuditReport.skipped ∧
    (check_unsynced_directories ListDirResult.denied ListDirResult.absent
      ["alpha"] ["v"] ["w"]).1 = AuditReport.warningNoAccess := by
  have h := claim_C8_audit ["alpha"] ["v"] ["w"]
  obtain ⟨us, hus, hiff⟩ := h.2.2.2.2.1 ListDirResult.absent ["alpha", "beta"]
  exact ⟨⟨us, hus, hiff "beta", hiff "alpha"⟩,
    h.2.1 (ListDirResult.ok ["alpha", "beta"]), h.2.2.1 ListDirResult.absent⟩
